import Mathlib

/-!
Verification development for the avatar-factory repository.

Shallow embedding of the orchestration core:
- the plugin pipeline (`src/core/avatar_engine.py`, `_process_through_plugins`),
- the per-instance engine session state machine (`AvatarEngine`),
- the instance registry (`src/factory/instance_manager.py`, `InstanceManager`),
- the realtime connection proxy queue (`src/core/realtime_proxy.py`, `RealtimeProxy`).

Python dicts are modelled as insertion-ordered association lists (Python
dicts preserve insertion order, which the pipeline relies on).  Wall-clock
timestamps (`datetime.now()`) are modelled as a `Nat` clock parameter.
External side effects (websocket I/O, speech synthesis, module loading)
are recorded as ghost event traces where a claim observes them.
-/

/-- Lookup in an insertion-ordered association list (Python `d.get(k)` /
`d[k]` on a dict with string keys). -/
def lookupAssoc {β : Type} : List (String × β) → String → Option β
  | [], _ => none
  | (k0, v) :: rest, k => if k0 = k then some v else lookupAssoc rest k

/-- Membership test (Python `k in d`). -/
def containsAssoc {β : Type} : List (String × β) → String → Bool
  | [], _ => false
  | (k0, _) :: rest, k => if k0 = k then true else containsAssoc rest k

/-- Dict assignment `d[k] = v`: overwrites in place when the key exists
(keeping its position, as Python dicts do), appends otherwise. -/
def setAssoc {β : Type} : List (String × β) → String → β → List (String × β)
  | [], k, v => [(k, v)]
  | (k0, v0) :: rest, k, v =>
      if k0 = k then (k, v) :: rest else (k0, v0) :: setAssoc rest k v

/-- In-place mutation of the value stored under an existing key (the Python
code mutates the engine object held by the registry dict).  Absent keys are
left untouched. -/
def updateAssoc {β : Type} : List (String × β) → String → β → List (String × β)
  | [], _, _ => []
  | (k0, v0) :: rest, k, v =>
      if k0 = k then (k, v) :: rest else (k0, v0) :: updateAssoc rest k v

/-- Dict deletion `del d[k]` (keys are unique in a dict, so removing the
first occurrence is exact). -/
def removeAssoc {β : Type} : List (String × β) → String → List (String × β)
  | [], _ => []
  | (k0, v0) :: rest, k => if k0 = k then rest else (k0, v0) :: removeAssoc rest k

/-- Python `d.update(e)`: fold the entries of `e` into `d`, later keys
overwriting earlier ones on conflict (existing keys keep their position). -/
def dictUpdate (d e : List (String × String)) : List (String × String) :=
  e.foldl (fun acc kv => setAssoc acc kv.1 kv.2) d

/-- A message handed to `process_message` / the plugin pipeline
(`message.get('type', 'text')`, `message.get('content', '')`). -/
structure Message where
  mtype : String
  content : String
deriving DecidableEq, Repr

/-- A plugin's returned response dict.  Absent keys behave like their
falsy defaults under the source's `.get` calls, so `content` absent is
`""`, `metadata` absent is `[]`, `final` absent is `false`. -/
structure PluginResponse where
  content : String
  metadata : List (String × String)
  final : Bool
deriving DecidableEq, Repr

/-- Outcome of one plugin at one message, as observed by the pipeline loop
in `AvatarEngine._process_through_plugins`:
`noProcess` — the plugin object has no `process` attribute (the
`hasattr(plugin, 'process')` check fails, the plugin is skipped);
`raises` — `process(message)` raises (caught and logged by the loop);
`returns r` — `process(message)` returns `r` (`none` models a falsy
return such as Python `None`, which skips the merge block). -/
inductive ProcBehavior where
  | noProcess
  | raises
  | returns (r : Option PluginResponse)
deriving DecidableEq, Repr

/-- The merged response accumulated by `_process_through_plugins`
(initialised to `{'content': '', 'metadata': {}}`). -/
structure MergedResponse where
  content : String
  metadata : List (String × String)
deriving DecidableEq, Repr

/-- Merge of one truthy plugin response into the accumulator:
`if plugin_response.get('content'): response['content'] = ...` and
`if plugin_response.get('metadata'): response['metadata'].update(...)`. -/
def mergeResponse (acc : MergedResponse) (r : PluginResponse) : MergedResponse :=
  let acc1 := if r.content ≠ "" then { acc with content := r.content } else acc
  if r.metadata ≠ [] then { acc1 with metadata := dictUpdate acc1.metadata r.metadata } else acc1

/-- The pipeline loop of `_process_through_plugins`: iterate the plugin
dict in registration order; exceptions are logged and skipped; a truthy
response is merged; a response with `final` truthy breaks the loop. -/
def processPlugins (acc : MergedResponse) :
    List (String × ProcBehavior) → MergedResponse
  | [] => acc
  | (_, ProcBehavior.noProcess) :: rest => processPlugins acc rest
  | (_, ProcBehavior.raises) :: rest => processPlugins acc rest
  | (_, ProcBehavior.returns none) :: rest => processPlugins acc rest
  | (_, ProcBehavior.returns (some r)) :: rest =>
      let acc2 := mergeResponse acc r
      if r.final then acc2 else processPlugins acc2 rest

/-- `AvatarEngine._process_through_plugins`, given the behaviour of each
registered plugin at the processed message. -/
def processThroughPlugins (ps : List (String × ProcBehavior)) : MergedResponse :=
  processPlugins { content := "", metadata := [] } ps

/-- Ghost observation: the names of the plugins whose `process(message)`
is actually invoked by the loop, in invocation order.  Mirrors the loop
structure: a plugin without a `process` attribute is never invoked; a
`final` response breaks the loop before any later plugin is invoked. -/
def invokedPlugins : List (String × ProcBehavior) → List String
  | [] => []
  | (_, ProcBehavior.noProcess) :: rest => invokedPlugins rest
  | (n, ProcBehavior.raises) :: rest => n :: invokedPlugins rest
  | (n, ProcBehavior.returns none) :: rest => n :: invokedPlugins rest
  | (n, ProcBehavior.returns (some r)) :: rest =>
      n :: (if r.final then [] else invokedPlugins rest)

/-- Whether a plugin behaviour returns a response with `final` truthy. -/
def isFinalB : ProcBehavior → Bool
  | ProcBehavior.returns (some r) => r.final
  | _ => false

/-- How a plugin's `cleanup` behaves: `noCleanup` — the object has no
`cleanup` attribute (the `hasattr` checks skip it); `ok` — `cleanup()`
returns normally; `raises` — `cleanup()` raises. -/
inductive CleanupBehavior where
  | noCleanup
  | ok
  | raises
deriving DecidableEq, Repr

/-- A loaded plugin object as the engine and registry observe it:
its `process` behaviour per message and its `cleanup` behaviour.
`ProcBehavior.noProcess` encodes a missing `process` attribute
(message-independent in the source). -/
structure Plugin where
  procAt : Message → ProcBehavior
  cleanup : CleanupBehavior

/-- One conversation-history entry (`{'role', 'content', 'timestamp'}`). -/
structure HistEntry where
  role : String
  content : String
  timestamp : Nat
deriving DecidableEq, Repr

/-- `AvatarEngine.session_state`: the session dict.  `metrics` is the
metrics dict itself (initially empty, fully populated by
`start_session`). -/
structure SessionState where
  active : Bool
  session_id : Option String
  start_time : Option Nat
  messages : List HistEntry
  metrics : List (String × Nat)
deriving DecidableEq, Repr

/-- The session dict installed by `AvatarEngine.__init__`. -/
def initSessionState : SessionState :=
  { active := false, session_id := none, start_time := none, messages := [], metrics := [] }

/-- The parts of the instance configuration the engine's initialization
sequence consults: truthiness of `azure.openai` and `azure.speech`, and
the names in the `plugins` list. -/
structure EngineConfig where
  hasOpenai : Bool
  hasSpeech : Bool
  pluginSpecs : List String
deriving DecidableEq, Repr

/-- Ghost events recording the side effects of the engine initialization
sequence: configuration load, persona load, realtime-proxy construction
and initialization, speech-handler construction and initialization, and
each plugin load (module exec + instantiation + `initialize(config)`). -/
inductive InitEvent where
  | loadConfig
  | loadPersona
  | initRealtime
  | initSpeech
  | pluginLoad (name : String)
deriving DecidableEq, Repr

/-- The per-instance engine (`AvatarEngine`).  `configSource` models the
YAML file at `config_path` (a successful `load_config` yields it);
`pluginSource` models the plugin files on disk together with the class
lookup and constructor in `_load_plugin` (`none` when the file or class
is missing, or loading raises — all skipped with a log in the source). -/
structure AvatarEngine where
  config : Option EngineConfig
  personaLoaded : Bool
  configSource : EngineConfig
  pluginSource : String → Option Plugin
  hasRealtimeProxy : Bool
  hasSpeechHandler : Bool
  plugins : List (String × Plugin)
  session_state : SessionState
  initDone : Bool

/-- `AvatarEngine.__init__`: fresh engine, nothing loaded, session inactive,
`_initialized = False`. -/
def AvatarEngine.new (cfgSrc : EngineConfig) (plugSrc : String → Option Plugin) :
    AvatarEngine :=
  { config := none, personaLoaded := false, configSource := cfgSrc,
    pluginSource := plugSrc, hasRealtimeProxy := false, hasSpeechHandler := false,
    plugins := [], session_state := initSessionState, initDone := false }

/-- Helper for `load_plugins`: fold over the configured plugin names,
storing each loadable plugin in the plugin dict (`self.plugins[name] = ...`)
and recording a `pluginLoad` event; unloadable names are skipped (the
per-plugin `try` in `load_plugins` logs and continues). -/
def loadPluginsAux (e : AvatarEngine) : List String → AvatarEngine × List InitEvent
  | [] => (e, [])
  | n :: rest =>
      match e.pluginSource n with
      | none => loadPluginsAux e rest
      | some p =>
          let e1 := { e with plugins := setAssoc e.plugins n p }
          let r := loadPluginsAux e1 rest
          (r.1, InitEvent.pluginLoad n :: r.2)

/-- `AvatarEngine.load_plugins` as called from the initialization sequence:
takes the plugin list from the loaded configuration. -/
def AvatarEngine.load_plugins (e : AvatarEngine) : AvatarEngine × List InitEvent :=
  loadPluginsAux e (e.config.getD e.configSource).pluginSpecs

/-- `AvatarEngine.initialize`: loads configuration and persona only when
not already loaded (`if not self.config`, `if not self.persona`), then
unconditionally re-creates and re-initializes the realtime proxy and the
speech handler when the configuration enables them, reloads every plugin,
and finally sets `_initialized = True`.  The returned trace records the
side effects performed by this call. -/
def AvatarEngine.engineInit (e : AvatarEngine) : AvatarEngine × List InitEvent :=
  let p1 : AvatarEngine × List InitEvent :=
    if e.config.isSome then (e, [])
    else ({ e with config := some e.configSource }, [InitEvent.loadConfig])
  let p2 : AvatarEngine × List InitEvent :=
    if p1.1.personaLoaded then (p1.1, [])
    else ({ p1.1 with personaLoaded := true }, [InitEvent.loadPersona])
  let cfg := p2.1.config.getD p2.1.configSource
  let p3 : AvatarEngine × List InitEvent :=
    if cfg.hasOpenai then ({ p2.1 with hasRealtimeProxy := true }, [InitEvent.initRealtime])
    else (p2.1, [])
  let p4 : AvatarEngine × List InitEvent :=
    if cfg.hasSpeech then ({ p3.1 with hasSpeechHandler := true }, [InitEvent.initSpeech])
    else (p3.1, [])
  let p5 := p4.1.load_plugins
  ({ p5.1 with initDone := true }, p1.2 ++ p2.2 ++ p3.2 ++ p4.2 ++ p5.2)

/-- Model of `datetime.now().isoformat()` over the `Nat` clock. -/
def isoTime (t : Nat) : String := toString t

/-- `session_id = session_id or datetime.now().isoformat()`: Python `or`
falls through on `None` and on the empty string (both falsy). -/
def chooseSessionId (sid : Option String) (t : Nat) : String :=
  match sid with
  | none => isoTime t
  | some s => if s = "" then isoTime t else s

/-- The metrics dict installed by `start_session`. -/
def zeroMetrics : List (String × Nat) :=
  [("messages_sent", 0), ("messages_received", 0), ("tokens_used", 0)]

/-- Result record of `start_session` (`{'session_id': ..., 'status': 'active'}`). -/
structure StartSessionResult where
  session_id : String
  status : String
deriving DecidableEq, Repr

/-- `AvatarEngine.start_session`: initializes the engine first when
`_initialized` is false, then unconditionally replaces `session_state`
with a fresh active session (id caller-supplied or generated, empty
history, zeroed metrics).  The realtime connect and avatar start are
soft external calls with no engine-state effect. -/
def AvatarEngine.start_session (e : AvatarEngine) (sid : Option String) (t : Nat) :
    AvatarEngine × StartSessionResult :=
  let e1 := if e.initDone then e else (e.engineInit).1
  let sessionId := chooseSessionId sid t
  let e2 := { e1 with session_state :=
    { active := true, session_id := some sessionId, start_time := some t,
      messages := [], metrics := zeroMetrics } }
  (e2, { session_id := sessionId, status := "active" })

/-- Result of `process_message`: either the error dict
`{'error': ...}` or the merged pipeline response. -/
inductive PMResult where
  | error (msg : String)
  | ok (r : MergedResponse)
deriving DecidableEq, Repr

/-- The behaviour of each registered plugin at a given message, in
registration order. -/
def AvatarEngine.pluginBehaviors (e : AvatarEngine) (m : Message) :
    List (String × ProcBehavior) :=
  e.plugins.map (fun p => (p.1, p.2.procAt m))

/-- Increment one counter of the metrics dict (`metrics[k] += 1`).  In the
source a missing key would raise `KeyError`; every session made active by
`start_session` carries the key, and theorems touching the increment path
restrict to such states. -/
def bumpMetric : List (String × Nat) → String → List (String × Nat)
  | [], _ => []
  | (k0, v) :: rest, k =>
      if k0 = k then (k0, v + 1) :: rest else (k0, v) :: bumpMetric rest k

/-- `AvatarEngine.process_message`: returns the error dict when no session
is active; otherwise appends the user entry, runs the pipeline, appends
the assistant entry (the source's `if response:` guard is always true —
the merged response dict always carries the `content` and `metadata` keys,
hence is truthy even with empty content), optionally speaks (external, no
session-state effect), and increments both message counters. -/
def AvatarEngine.process_message (e : AvatarEngine) (m : Message) (t : Nat) :
    AvatarEngine × PMResult :=
  if e.session_state.active = false then (e, PMResult.error "No active session")
  else
    let ss1 := { e.session_state with
      messages := e.session_state.messages ++
        [({ role := "user", content := m.content, timestamp := t } : HistEntry)] }
    let resp := processThroughPlugins (e.pluginBehaviors m)
    let ss2 := { ss1 with
      messages := ss1.messages ++
        [({ role := "assistant", content := resp.content, timestamp := t } : HistEntry)] }
    let ss3 := { ss2 with
      metrics := bumpMetric (bumpMetric ss2.metrics "messages_received") "messages_sent" }
    ({ e with session_state := ss3 }, PMResult.ok resp)

/-- Result of `stop_session`: the error dict or
`{'session_id', 'status': 'stopped', 'metrics'}`. -/
inductive StopSessionResult where
  | error (msg : String)
  | stopped (session_id : String) (metrics : List (String × Nat))
deriving DecidableEq, Repr

/-- `AvatarEngine.stop_session`: error when no session is active;
otherwise disconnects the proxy and stops the avatar (external soft
calls), runs every plugin's cleanup with per-plugin isolation (each call
wrapped in its own `try`, no session-state effect), computes the duration,
merges `session_duration` into the final metrics, and flips `active` to
false (history, id and counters are retained in `session_state`). -/
def AvatarEngine.stop_session (e : AvatarEngine) (t : Nat) :
    AvatarEngine × StopSessionResult :=
  if e.session_state.active = false then (e, StopSessionResult.error "No active session")
  else
    let sid := e.session_state.session_id.getD ""
    let duration := t - e.session_state.start_time.getD 0
    let finalMetrics := setAssoc e.session_state.metrics "session_duration" duration
    ({ e with session_state := { e.session_state with active := false } },
     StopSessionResult.stopped sid finalMetrics)

/-- Metadata record kept per instance
(`{'started_at', 'status', 'sessions'}`, later extended with `stopped_at`). -/
structure InstanceMeta where
  started_at : Nat
  status : String
  sessions : Nat
  stopped_at : Option Nat
deriving DecidableEq, Repr

/-- The registry (`InstanceManager.__init__`): the running-engine dict, the
metadata dict, and `max_instances = 10`. -/
structure InstanceManager where
  instances : List (String × AvatarEngine)
  instance_metadata : List (String × InstanceMeta)
  max_instances : Nat

/-- A freshly constructed `InstanceManager`. -/
def initManager : InstanceManager :=
  { instances := [], instance_metadata := [], max_instances := 10 }

/-- `InstanceManager.start_instance`.  `created` is the outcome of
`AvatarFactory.create_avatar(name)` — `none` models an exception raised by
the factory or by the subsequent `avatar.initialize()` (the outer `except`
returns `False` and stores nothing).  When already running, returns `True`
without touching anything; at capacity, returns `False` without touching
anything; otherwise initializes the engine, stores it, and records fresh
metadata. -/
def InstanceManager.start_instance (m : InstanceManager) (name : String)
    (created : Option AvatarEngine) (t : Nat) : InstanceManager × Bool :=
  if containsAssoc m.instances name then (m, true)
  else if m.max_instances ≤ m.instances.length then (m, false)
  else
    match created with
    | none => (m, false)
    | some av =>
        let av1 := (av.engineInit).1
        ({ m with
            instances := m.instances ++ [(name, av1)],
            instance_metadata := setAssoc m.instance_metadata name
              { started_at := t, status := "running", sessions := 0, stopped_at := none } },
         true)

/-- Whether the unprotected cleanup loop in `stop_instance` aborts with an
exception: true when some plugin has a `cleanup` attribute whose call
raises (the loop body is not wrapped in its own `try`, so the exception
escapes to the method-level `except`). -/
def cleanupAborted : List (String × Plugin) → Bool
  | [] => false
  | (_, p) :: rest =>
      match p.cleanup with
      | CleanupBehavior.raises => true
      | _ => cleanupAborted rest

/-- Ghost observation: the plugins whose `cleanup()` the `stop_instance`
loop actually invokes, in order — every plugin with a `cleanup` attribute
up to and including the first whose cleanup raises; plugins after the
raiser are never reached. -/
def cleanupTrace : List (String × Plugin) → List String
  | [] => []
  | (n, p) :: rest =>
      match p.cleanup with
      | CleanupBehavior.noCleanup => cleanupTrace rest
      | CleanupBehavior.ok => n :: cleanupTrace rest
      | CleanupBehavior.raises => [n]

/-- Update the metadata dict on successful stop: when the name is present,
set `status = 'stopped'` and `stopped_at`. -/
def metaStopped (md : List (String × InstanceMeta)) (k : String) (t : Nat) :
    List (String × InstanceMeta) :=
  match lookupAssoc md k with
  | none => md
  | some im => updateAssoc md k { im with status := "stopped", stopped_at := some t }

/-- `InstanceManager.stop_instance`: `False` when not running.  Otherwise
stops an active session first (in-place mutation of the stored engine),
then runs the plugin cleanup loop; if some cleanup raises, the exception
reaches the method-level `except` and the method returns `False` with the
entry still present (the mutation from `stop_session` persists).  Only
when every cleanup call returns is the entry deleted and the metadata
marked stopped. -/
def InstanceManager.stop_instance (m : InstanceManager) (name : String) (t : Nat) :
    InstanceManager × Bool :=
  match lookupAssoc m.instances name with
  | none => (m, false)
  | some av =>
      let av1 := if av.session_state.active then (av.stop_session t).1 else av
      let m1 := { m with instances := updateAssoc m.instances name av1 }
      if cleanupAborted av1.plugins then (m1, false)
      else
        let m2 := { m1 with instances := removeAssoc m1.instances name }
        ({ m2 with instance_metadata := metaStopped m2.instance_metadata name t }, true)

/-- `InstanceManager.process_message`: error dict when the instance is not
running or its session is inactive; otherwise delegates to the engine (the
engine object in the dict is mutated in place). -/
def InstanceManager.process_message (mgr : InstanceManager) (name : String)
    (msg : Message) (t : Nat) : InstanceManager × PMResult :=
  match lookupAssoc mgr.instances name with
  | none => (mgr, PMResult.error ("Instance " ++ name ++ " not running"))
  | some av =>
      if av.session_state.active = false then (mgr, PMResult.error "No active session")
      else
        let r := av.process_message msg t
        ({ mgr with instances := updateAssoc mgr.instances name r.1 }, r.2)

/-- One registry-level call in a sequence of `start_instance` /
`stop_instance` operations. -/
inductive MgrOp where
  | start (name : String) (created : Option AvatarEngine) (t : Nat)
  | stop (name : String) (t : Nat)

/-- Apply one registry operation, discarding the boolean result. -/
def applyOp (m : InstanceManager) : MgrOp → InstanceManager
  | MgrOp.start name created t => (m.start_instance name created t).1
  | MgrOp.stop name t => (m.stop_instance name t).1

/-- Run a sequence of registry operations from a starting state. -/
def runOps (m : InstanceManager) (ops : List MgrOp) : InstanceManager :=
  ops.foldl applyOp m

/-- The realtime proxy state the send/open paths touch
(`RealtimeProxy.is_connected`, `message_queue`), plus a ghost trace `sent`
of the frames handed to `ws.send` in transmission order.  Frames are the
serialized messages. -/
structure ProxyState where
  is_connected : Bool
  message_queue : List String
  sent : List String
deriving DecidableEq, Repr

/-- `RealtimeProxy.send`: when not connected, append to the outbound queue
and return `False`; when connected, serialize and transmit, returning
`True` (the `except` branch for a transport failure of `ws.send` itself is
outside the model — transmission is recorded on the ghost trace). -/
def ProxyState.send (s : ProxyState) (msg : String) : ProxyState × Bool :=
  if s.is_connected = false then
    ({ s with message_queue := s.message_queue ++ [msg] }, false)
  else
    ({ s with sent := s.sent ++ [msg] }, true)

/-- `RealtimeProxy._on_open`: mark connected, re-`send` every queued
message (now transmitted, since `is_connected` is already true), then
clear the queue. -/
def ProxyState.on_open (s : ProxyState) : ProxyState :=
  let s1 := { s with is_connected := true }
  let s2 := s1.message_queue.foldl (fun acc msg => (ProxyState.send acc msg).1) s1
  { s2 with message_queue := [] }

/-- Processing a pipeline whose first segment contains no `final` response
splits: the loop never breaks inside that segment. -/
theorem processPlugins_append_nofinal :
    ∀ (A L : List (String × ProcBehavior)) (acc : MergedResponse),
      (∀ q ∈ A, isFinalB q.2 = false) →
      processPlugins acc (A ++ L) = processPlugins (processPlugins acc A) L := by
  intro A
  induction A with
  | nil => intro L acc _; rfl
  | cons hd tl ih =>
      intro L acc h
      obtain ⟨n, b⟩ := hd
      have htl : ∀ q ∈ tl, isFinalB q.2 = false := fun q hq => h q (List.mem_cons_of_mem _ hq)
      cases b with
      | noProcess => simpa [processPlugins] using ih L acc htl
      | raises => simpa [processPlugins] using ih L acc htl
      | returns r =>
          cases r with
          | none => simpa [processPlugins] using ih L acc htl
          | some pr =>
              have hf : pr.final = false := by
                simpa [isFinalB] using h (n, ProcBehavior.returns (some pr)) (List.mem_cons_self _ _)
              simpa [processPlugins, hf] using ih L (mergeResponse acc pr) htl

/-- The invocation trace of a pipeline whose first segment contains no
`final` response splits the same way. -/
theorem invokedPlugins_append_nofinal :
    ∀ (A L : List (String × ProcBehavior)),
      (∀ q ∈ A, isFinalB q.2 = false) →
      invokedPlugins (A ++ L) = invokedPlugins A ++ invokedPlugins L := by
  intro A
  induction A with
  | nil => intro L _; rfl
  | cons hd tl ih =>
      intro L h
      obtain ⟨n, b⟩ := hd
      have htl : ∀ q ∈ tl, isFinalB q.2 = false := fun q hq => h q (List.mem_cons_of_mem _ hq)
      cases b with
      | noProcess => simpa [invokedPlugins] using ih L htl
      | raises => simpa [invokedPlugins] using ih L htl
      | returns r =>
          cases r with
          | none => simpa [invokedPlugins] using ih L htl
          | some pr =>
              have hf : pr.final = false := by
                simpa [isFinalB] using h (n, ProcBehavior.returns (some pr)) (List.mem_cons_self _ _)
              simpa [invokedPlugins, hf] using ih L htl

/-- Merging a response with non-empty content installs that content. -/
theorem mergeResponse_content (acc : MergedResponse) (r : PluginResponse)
    (hc : r.content ≠ "") : (mergeResponse acc r).content = r.content := by
  unfold mergeResponse
  simp only [hc]
  split <;> simp

/-- RAG plugin response of the specified pipeline scenario. -/
def ragResp : PluginResponse :=
  { content := "ctx", metadata := [("k", "v1"), ("source", "rag")], final := false }

/-- Tools plugin response of the specified pipeline scenario. -/
def toolsResp : PluginResponse :=
  { content := "Tool X: result", metadata := [("k", "v2"), ("tool", "X")], final := true }

/-- Third plugin response of the specified pipeline scenario (it is never
invoked, because the tools response is final). -/
def thirdResp : PluginResponse :=
  { content := "third", metadata := [("third", "t")], final := false }

/-- Scenario prefix: the RAG plugin alone. -/
def c3A : List (String × ProcBehavior) := [("rag_plugin", ProcBehavior.returns (some ragResp))]

/-- Scenario suffix: the third plugin. -/
def c3B : List (String × ProcBehavior) :=
  [("third_plugin", ProcBehavior.returns (some thirdResp))]

/-- The full scenario pipeline in registration order. -/
def c3Pipeline : List (String × ProcBehavior) :=
  c3A ++ ("tools_plugin", ProcBehavior.returns (some toolsResp)) :: c3B

/-- C3: the pipeline merges in registration order — a final response with
non-empty content wins the merged content and stops iteration (no later
plugin's `process` is invoked), and on the specified scenario the merged
content is "Tool X: result", the merged metadata carries keys from both
the RAG and the tools plugin (with the later value on the conflicting
key), and the third plugin is never invoked. -/
theorem claim_c3_pipeline_merge :
    (∀ (A B : List (String × ProcBehavior)) (n : String) (r : PluginResponse),
        (∀ q ∈ A, isFinalB q.2 = false) → r.final = true → r.content ≠ "" →
        (processThroughPlugins (A ++ (n, ProcBehavior.returns (some r)) :: B)).content
            = r.content ∧
        invokedPlugins (A ++ (n, ProcBehavior.returns (some r)) :: B)
            = invokedPlugins A ++ [n]) ∧
    processThroughPlugins c3Pipeline =
      { content := "Tool X: result",
        metadata := [("k", "v2"), ("source", "rag"), ("tool", "X")] } ∧
    invokedPlugins c3Pipeline = ["rag_plugin", "tools_plugin"] ∧
    containsAssoc (processThroughPlugins c3Pipeline).metadata "source" = true ∧
    containsAssoc (processThroughPlugins c3Pipeline).metadata "tool" = true := by
  refine ⟨?_, by decide, by decide, by decide, by decide⟩
  intro A B n r hA hf hc
  constructor
  · rw [processThroughPlugins, processPlugins_append_nofinal A _ _ hA]
    simp [processPlugins, hf, mergeResponse_content _ _ hc]
  · rw [invokedPlugins_append_nofinal A _ hA]
    simp [invokedPlugins, hf]

/-- Witness for C3: the general conjunct applied at the scenario. -/
theorem claim_c3_pipeline_merge_witness :
    (processThroughPlugins c3Pipeline).content = toolsResp.content ∧
    invokedPlugins c3Pipeline = invokedPlugins c3A ++ ["tools_plugin"] :=
  claim_c3_pipeline_merge.1 c3A c3B "tools_plugin" toolsResp (by decide) rfl (by decide)

/-- C4: a plugin whose `process` raises is isolated — with it removed the
merged response is unchanged, and every plugin after it is still invoked
exactly as it would be without it (first conjunct: merged response equal;
second and third: the invocation trace of the pipeline with the raiser is
the trace without it, with the raiser's own invocation spliced in). -/
theorem claim_c4_exception_isolation :
    ∀ (A B : List (String × ProcBehavior)) (n : String),
      (∀ q ∈ A, isFinalB q.2 = false) →
      processThroughPlugins (A ++ (n, ProcBehavior.raises) :: B)
          = processThroughPlugins (A ++ B) ∧
      invokedPlugins (A ++ (n, ProcBehavior.raises) :: B)
          = invokedPlugins A ++ n :: invokedPlugins B ∧
      invokedPlugins (A ++ B) = invokedPlugins A ++ invokedPlugins B := by
  intro A B n hA
  refine ⟨?_, ?_, invokedPlugins_append_nofinal A B hA⟩
  · rw [processThroughPlugins, processThroughPlugins,
      processPlugins_append_nofinal A _ _ hA, processPlugins_append_nofinal A _ _ hA]
    simp [processPlugins]
  · rw [invokedPlugins_append_nofinal A _ hA]
    simp [invokedPlugins]

/-- Second segment used by the C4 witness. -/
def c4B : List (String × ProcBehavior) :=
  [("tools_plugin", ProcBehavior.returns (some toolsResp))]

/-- Witness for C4: a raising plugin between the RAG and tools plugins
changes neither the merged response nor the tools plugin's invocation. -/
theorem claim_c4_exception_isolation_witness :
    processThroughPlugins (c3A ++ ("boom", ProcBehavior.raises) :: c4B)
        = processThroughPlugins (c3A ++ c4B) ∧
    invokedPlugins (c3A ++ ("boom", ProcBehavior.raises) :: c4B)
        = invokedPlugins c3A ++ "boom" :: invokedPlugins c4B ∧
    invokedPlugins (c3A ++ c4B) = invokedPlugins c3A ++ invokedPlugins c4B :=
  claim_c4_exception_isolation c3A c4B "boom" (by decide)


/-- Flushing messages through `send` from a connected state transmits them
in order, appending to the ghost trace and leaving the queue untouched. -/
theorem foldl_send_connected :
    ∀ (msgs : List String) (acc : ProxyState), acc.is_connected = true →
      msgs.foldl (fun a m => (ProxyState.send a m).1) acc
        = { acc with sent := acc.sent ++ msgs } := by
  intro msgs
  induction msgs with
  | nil => intro acc _; simp
  | cons m rest ih =>
      intro acc h
      have hstep : (ProxyState.send acc m).1 = { acc with sent := acc.sent ++ [m] } := by
        simp [ProxyState.send, h]
      rw [List.foldl_cons, hstep, ih { acc with sent := acc.sent ++ [m] } h]
      simp

/-- C5: `send` while not connected appends the message to the FIFO queue
and returns false; the open transition transmits every queued message in
original enqueue order (the transmission trace is extended by exactly the
queue) and leaves the queue empty and the state connected. -/
theorem claim_c5_queue_flush :
    (∀ (s : ProxyState) (msg : String), s.is_connected = false →
        s.send msg = ({ s with message_queue := s.message_queue ++ [msg] }, false)) ∧
    (∀ s : ProxyState,
        (s.on_open).sent = s.sent ++ s.message_queue ∧
        (s.on_open).message_queue = [] ∧
        (s.on_open).is_connected = true) := by
  constructor
  · intro s msg h
    simp [ProxyState.send, h]
  · intro s
    simp only [ProxyState.on_open]
    rw [foldl_send_connected s.message_queue { s with is_connected := true } rfl]
    simp

/-- Disconnected proxy state used by the C5 witness, with two messages
already queued. -/
def c5State : ProxyState :=
  { is_connected := false, message_queue := ["m1", "m2"], sent := [] }

/-- Witness for C5: a concrete queued send followed by the open flush. -/
theorem claim_c5_queue_flush_witness :
    c5State.send "m3" = ({ c5State with message_queue := ["m1", "m2", "m3"] }, false) ∧
    ((c5State.send "m3").1.on_open).sent = ["m1", "m2", "m3"] ∧
    ((c5State.send "m3").1.on_open).message_queue = [] := by
  have h1 := claim_c5_queue_flush.1 c5State "m3" rfl
  have h2 := claim_c5_queue_flush.2 (c5State.send "m3").1
  exact ⟨h1, by rw [h2.1]; rfl, h2.2.1⟩

/-- `updateAssoc` never changes the number of entries. -/
theorem updateAssoc_length {β : Type} :
    ∀ (l : List (String × β)) (k : String) (v : β),
      (updateAssoc l k v).length = l.length := by
  intro l
  induction l with
  | nil => intro k v; rfl
  | cons hd tl ih =>
      intro k v
      obtain ⟨k0, v0⟩ := hd
      by_cases h : k0 = k <;> simp [updateAssoc, h, ih]

/-- `removeAssoc` never adds entries. -/
theorem removeAssoc_length_le {β : Type} :
    ∀ (l : List (String × β)) (k : String),
      (removeAssoc l k).length ≤ l.length := by
  intro l
  induction l with
  | nil => intro k; exact Nat.le_refl _
  | cons hd tl ih =>
      intro k
      obtain ⟨k0, v0⟩ := hd
      by_cases h : k0 = k
      · simp only [removeAssoc, if_pos h, List.length_cons]
        exact Nat.le_succ _
      · simp only [removeAssoc, if_neg h, List.length_cons]
        exact Nat.succ_le_succ (ih k)

/-- Overwriting an existing key with the value it already holds is the
identity (the in-place object mutation performed through the registry's
reference leaves the dict itself unchanged when the engine is unchanged). -/
theorem updateAssoc_self {β : Type} :
    ∀ (l : List (String × β)) (k : String) (v : β),
      lookupAssoc l k = some v → updateAssoc l k v = l := by
  intro l
  induction l with
  | nil => intro k v h; rfl
  | cons hd tl ih =>
      intro k v h
      obtain ⟨k0, v0⟩ := hd
      by_cases hk : k0 = k
      · simp only [lookupAssoc, if_pos hk] at h
        have hv : v0 = v := Option.some.inj h
        simp [updateAssoc, hk, hv]
      · simp only [lookupAssoc, if_neg hk] at h
        simp [updateAssoc, hk, ih k v h]

/-- `start_instance` never changes the configured capacity bound. -/
theorem start_instance_max (m : InstanceManager) (name : String)
    (created : Option AvatarEngine) (t : Nat) :
    (m.start_instance name created t).1.max_instances = m.max_instances := by
  unfold InstanceManager.start_instance
  by_cases h1 : containsAssoc m.instances name = true
  · simp [h1]
  · by_cases h2 : m.max_instances ≤ m.instances.length
    · simp [h1, h2]
    · cases created <;> simp [h1, h2]

/-- `start_instance` preserves the capacity invariant. -/
theorem start_instance_length (m : InstanceManager) (name : String)
    (created : Option AvatarEngine) (t : Nat)
    (h : m.instances.length ≤ m.max_instances) :
    (m.start_instance name created t).1.instances.length ≤ m.max_instances := by
  unfold InstanceManager.start_instance
  by_cases h1 : containsAssoc m.instances name = true
  · simpa [h1] using h
  · by_cases h2 : m.max_instances ≤ m.instances.length
    · simpa [h1, h2] using h
    · cases created with
      | none => simpa [h1, h2] using h
      | some av =>
          simp only [h1, h2, if_false, List.length_append, List.length_cons]
          simp
          omega

/-- `stop_instance` never changes the configured capacity bound. -/
theorem stop_instance_max (m : InstanceManager) (name : String) (t : Nat) :
    (m.stop_instance name t).1.max_instances = m.max_instances := by
  unfold InstanceManager.stop_instance
  cases hl : lookupAssoc m.instances name with
  | none => rfl
  | some av =>
      by_cases ha : cleanupAborted
          (if av.session_state.active = true then (av.stop_session t).1 else av).plugins = true
      · simp [ha]
      · simp [ha]

/-- `stop_instance` never grows the registry. -/
theorem stop_instance_length_le (m : InstanceManager) (name : String) (t : Nat) :
    (m.stop_instance name t).1.instances.length ≤ m.instances.length := by
  unfold InstanceManager.stop_instance
  cases hl : lookupAssoc m.instances name with
  | none => exact Nat.le_refl _
  | some av =>
      by_cases ha : cleanupAborted
          (if av.session_state.active = true then (av.stop_session t).1 else av).plugins = true
      · simp only [ha, if_true]
        exact Nat.le_of_eq (updateAssoc_length _ _ _)
      · simp only [ha, if_false]
        calc (removeAssoc (updateAssoc m.instances name _) name).length
            ≤ (updateAssoc m.instances name _).length := removeAssoc_length_le _ _
          _ = m.instances.length := updateAssoc_length _ _ _

/-- A single registry operation preserves the capacity invariant and the
configured bound. -/
theorem applyOp_capacity (m : InstanceManager) (op : MgrOp)
    (h : m.instances.length ≤ m.max_instances) :
    (applyOp m op).instances.length ≤ (applyOp m op).max_instances ∧
    (applyOp m op).max_instances = m.max_instances := by
  cases op with
  | start name created t =>
      refine ⟨?_, ?_⟩ <;> simp only [applyOp]
      · rw [start_instance_max]
        exact start_instance_length _ _ _ _ h
      · exact start_instance_max _ _ _ _
  | stop name t =>
      refine ⟨?_, ?_⟩ <;> simp only [applyOp]
      · rw [stop_instance_max]
        exact Nat.le_trans (stop_instance_length_le _ _ _) h
      · exact stop_instance_max _ _ _

/-- Any sequence of registry operations preserves the capacity invariant
and the configured bound. -/
theorem runOps_capacity :
    ∀ (ops : List MgrOp) (m : InstanceManager),
      m.instances.length ≤ m.max_instances →
      (runOps m ops).instances.length ≤ (runOps m ops).max_instances ∧
      (runOps m ops).max_instances = m.max_instances := by
  intro ops
  induction ops with
  | nil => intro m h; exact ⟨h, rfl⟩
  | cons op rest ih =>
      intro m h
      have h1 := applyOp_capacity m op h
      have h2 := ih (applyOp m op) (h1.2 ▸ h1.1)
      simp only [runOps, List.foldl_cons] at h2 ⊢
      exact ⟨h2.1, h2.2.trans h1.2⟩

/-- C2: over every sequence of StartInstance/StopInstance operations from
a fresh registry, the number of running instances never exceeds the
default capacity bound 10; and a `start_instance` on a registry already
at (or beyond) its bound, for a name not running, fails and leaves the
registry completely unchanged. -/
theorem claim_c2_capacity_bound :
    (∀ ops : List MgrOp, (runOps initManager ops).instances.length ≤ 10) ∧
    (∀ (m : InstanceManager) (name : String) (created : Option AvatarEngine) (t : Nat),
        m.max_instances ≤ m.instances.length →
        containsAssoc m.instances name = false →
        m.start_instance name created t = (m, false)) := by
  constructor
  · intro ops
    have h := runOps_capacity ops initManager (by exact Nat.zero_le _)
    have h10 : (runOps initManager ops).max_instances = 10 := h.2
    exact h10 ▸ h.1
  · intro m name created t hcap habs
    unfold InstanceManager.start_instance
    simp [habs, hcap]

/-- A registry already at its capacity bound, used by the C2 witness. -/
def zeroCapMgr : InstanceManager :=
  { instances := [], instance_metadata := [], max_instances := 0 }

/-- Witness for C2: the invariant at a concrete operation sequence, and a
concrete at-capacity start that fails without touching the registry. -/
theorem claim_c2_capacity_bound_witness :
    (runOps initManager []).instances.length ≤ 10 ∧
    zeroCapMgr.start_instance "a" none 0 = (zeroCapMgr, false) :=
  ⟨claim_c2_capacity_bound.1 [],
   claim_c2_capacity_bound.2 zeroCapMgr "a" none 0 (Nat.le_refl 0) rfl⟩

/-- C6: `start_instance` on a name already running returns success and
changes nothing — no second engine is created, the registry and metadata
are untouched. -/
theorem claim_c6_start_idempotent :
    ∀ (m : InstanceManager) (name : String) (created : Option AvatarEngine) (t : Nat),
      containsAssoc m.instances name = true →
      m.start_instance name created t = (m, true) := by
  intro m name created t h
  unfold InstanceManager.start_instance
  simp [h]

/-- Engine configuration with nothing enabled, used by concrete states. -/
def sampleCfg : EngineConfig := { hasOpenai := false, hasSpeech := false, pluginSpecs := [] }

/-- A freshly constructed engine over the empty configuration. -/
def sampleEngine : AvatarEngine := AvatarEngine.new sampleCfg (fun _ => none)

/-- A registry running the single instance "a". -/
def c6Mgr : InstanceManager :=
  { instances := [("a", sampleEngine)], instance_metadata := [], max_instances := 10 }

/-- Witness for C6: restarting the running instance "a" reports success
and leaves the registry unchanged. -/
theorem claim_c6_start_idempotent_witness :
    c6Mgr.start_instance "a" (some sampleEngine) 3 = (c6Mgr, true) :=
  claim_c6_start_idempotent c6Mgr "a" (some sampleEngine) 3 rfl

/-- A raising cleanup anywhere in the plugin list makes the unprotected
cleanup loop abort. -/
theorem cleanupAborted_append_raises :
    ∀ (A B : List (String × Plugin)) (n : String) (p : Plugin),
      p.cleanup = CleanupBehavior.raises →
      cleanupAborted (A ++ (n, p) :: B) = true := by
  intro A
  induction A with
  | nil =>
      intro B n p hp
      simp [cleanupAborted, hp]
  | cons hd tl ih =>
      intro B n p hp
      obtain ⟨k, q⟩ := hd
      cases hq : q.cleanup <;> simp [cleanupAborted, hq, ih B n p hp]

/-- The cleanup-invocation trace distributes over a first segment that
contains no raising cleanup. -/
theorem cleanupTrace_append_noraise :
    ∀ (A L : List (String × Plugin)),
      (∀ q ∈ A, q.2.cleanup ≠ CleanupBehavior.raises) →
      cleanupTrace (A ++ L) = cleanupTrace A ++ cleanupTrace L := by
  intro A
  induction A with
  | nil => intro L _; rfl
  | cons hd tl ih =>
      intro L h
      obtain ⟨k, q⟩ := hd
      have htl : ∀ r ∈ tl, r.2.cleanup ≠ CleanupBehavior.raises :=
        fun r hr => h r (List.mem_cons_of_mem _ hr)
      have hq : q.cleanup ≠ CleanupBehavior.raises := h (k, q) (List.mem_cons_self _ _)
      cases hc : q.cleanup with
      | raises => exact absurd hc hq
      | noCleanup => simp [cleanupTrace, hc, ih L htl]
      | ok => simp [cleanupTrace, hc, ih L htl]

/-- C1 (amended): when a registered instance with no active session has a
plugin whose `cleanup` raises, `stop_instance` aborts at that plugin — the
cleanups after it are never invoked (the trace stops at the raiser), the
instance entry is NOT removed from the registry, and the call reports
failure.  Per-plugin isolation exists only inside the engine-level
`stop_session` cleanup, not in `stop_instance`'s own loop. -/
theorem claim_c1_stop_cleanup_aborts :
    ∀ (m : InstanceManager) (name : String) (av : AvatarEngine) (t : Nat)
      (A B : List (String × Plugin)) (n : String) (p : Plugin),
      lookupAssoc m.instances name = some av →
      av.session_state.active = false →
      av.plugins = A ++ (n, p) :: B →
      p.cleanup = CleanupBehavior.raises →
      (∀ q ∈ A, q.2.cleanup ≠ CleanupBehavior.raises) →
      m.stop_instance name t = (m, false) ∧
      cleanupTrace av.plugins = cleanupTrace A ++ [n] := by
  intro m name av t A B n p hl hact hplug hp hA
  constructor
  · unfold InstanceManager.stop_instance
    have habort : cleanupAborted av.plugins = true :=
      hplug ▸ cleanupAborted_append_raises A B n p hp
    simp only [hl, hact, Bool.false_eq_true, if_false, habort, if_true]
    rw [updateAssoc_self m.instances name av hl]
  · rw [hplug, cleanupTrace_append_noraise A _ hA]
    simp [cleanupTrace, hp]

/-- Plugin whose `cleanup()` returns normally. -/
def cxPluginOk : Plugin :=
  { procAt := fun _ => ProcBehavior.returns none, cleanup := CleanupBehavior.ok }

/-- Plugin whose `cleanup()` raises. -/
def cxPluginRaise : Plugin :=
  { procAt := fun _ => ProcBehavior.returns none, cleanup := CleanupBehavior.raises }

/-- Engine whose first plugin's cleanup raises and whose second is fine. -/
def c1Engine : AvatarEngine :=
  { sampleEngine with plugins := [("p1", cxPluginRaise), ("p2", cxPluginOk)] }

/-- Registry running the single instance "a" with the failing-cleanup
engine. -/
def c1Mgr : InstanceManager :=
  { instances := [("a", c1Engine)],
    instance_metadata :=
      [("a", { started_at := 0, status := "running", sessions := 0, stopped_at := none })],
    max_instances := 10 }

/-- Counterexample to C1 as stated: when plugin "p1"'s cleanup raises,
`stop_instance` reports failure (not success), the instance is still in
the running registry (not removed), and "p2"'s cleanup is never invoked
(the trace stops at "p1"). -/
theorem claim_c1_counterexample :
    (c1Mgr.stop_instance "a" 7).2 = false ∧
    containsAssoc (c1Mgr.stop_instance "a" 7).1.instances "a" = true ∧
    cleanupTrace c1Engine.plugins = ["p1"] :=
  ⟨rfl, rfl, rfl⟩

/-- Witness for the amended C1 at the concrete failing registry. -/
theorem claim_c1_stop_cleanup_aborts_witness :
    c1Mgr.stop_instance "a" 7 = (c1Mgr, false) ∧
    cleanupTrace c1Engine.plugins = cleanupTrace ([] : List (String × Plugin)) ++ ["p1"] :=
  claim_c1_stop_cleanup_aborts c1Mgr "a" c1Engine 7 [] [("p2", cxPluginOk)] "p1"
    cxPluginRaise rfl rfl rfl rfl (by simp)

/-- C9: with no active session, `process_message` returns the
NoActiveSession error dict, raises nothing (the embedded operation is
total), and leaves the engine — history, metrics, active flag — entirely
unchanged; the registry-level `process_message` does the same for a
running instance whose session is inactive; and a freshly constructed
engine (before any StartSession) has no active session. -/
theorem claim_c9_no_active_session :
    (∀ (e : AvatarEngine) (m : Message) (t : Nat),
        e.session_state.active = false →
        e.process_message m t = (e, PMResult.error "No active session")) ∧
    (∀ (mgr : InstanceManager) (name : String) (msg : Message) (t : Nat) (av : AvatarEngine),
        lookupAssoc mgr.instances name = some av →
        av.session_state.active = false →
        mgr.process_message name msg t = (mgr, PMResult.error "No active session")) ∧
    (∀ (cfg : EngineConfig) (src : String → Option Plugin),
        (AvatarEngine.new cfg src).session_state.active = false) := by
  refine ⟨?_, ?_, fun _ _ => rfl⟩
  · intro e m t h
    unfold AvatarEngine.process_message
    simp [h]
  · intro mgr name msg t av hl h
    unfold InstanceManager.process_message
    simp only [hl, h, if_true]

/-- Witness for C9: the fresh sample engine and the registry running it
both reject a message with the NoActiveSession error. -/
theorem claim_c9_no_active_session_witness :
    sampleEngine.process_message { mtype := "text", content := "hi" } 0
        = (sampleEngine, PMResult.error "No active session") ∧
    c6Mgr.process_message "a" { mtype := "text", content := "hi" } 0
        = (c6Mgr, PMResult.error "No active session") :=
  ⟨claim_c9_no_active_session.1 sampleEngine { mtype := "text", content := "hi" } 0 rfl,
   claim_c9_no_active_session.2.1 c6Mgr "a" { mtype := "text", content := "hi" } 0
     sampleEngine rfl rfl⟩

/-- C10: `start_session` on an initialized engine with a session already
active is not rejected — it returns an active-session result and replaces
`session_state` wholesale with a fresh session (caller-supplied or
generated id, empty message history, zeroed metrics), discarding the
previous session's history and metrics without any finalization; the
engine holds a single `session_state`, so at most one session is active
afterwards. -/
theorem claim_c10_start_session_replaces :
    ∀ (e : AvatarEngine) (sid : Option String) (t : Nat),
      e.initDone = true → e.session_state.active = true →
      e.start_session sid t =
        ({ e with session_state :=
            { active := true, session_id := some (chooseSessionId sid t),
              start_time := some t, messages := [], metrics := zeroMetrics } },
         { session_id := chooseSessionId sid t, status := "active" }) := by
  intro e sid t hinit _
  unfold AvatarEngine.start_session
  simp [hinit]

/-- Initialized engine with an active session carrying history and
metrics, used by the C10 and C8 witnesses. -/
def c10Engine : AvatarEngine :=
  { sampleEngine with
    initDone := true,
    session_state :=
      { active := true, session_id := some "old", start_time := some 1,
        messages := [{ role := "user", content := "earlier", timestamp := 2 }],
        metrics := [("messages_sent", 4), ("messages_received", 4), ("tokens_used", 0)] } }

/-- Witness for C10: restarting the session on the active engine replaces
it with a fresh one. -/
theorem claim_c10_start_session_replaces_witness :
    c10Engine.start_session none 9 =
      ({ c10Engine with session_state :=
          { active := true, session_id := some (chooseSessionId none 9),
            start_time := some 9, messages := [], metrics := zeroMetrics } },
       { session_id := chooseSessionId none 9, status := "active" }) :=
  claim_c10_start_session_replaces c10Engine none 9 rfl rfl

/-- Engine with everything loaded and nothing enabled, before any session. -/
def c8Base : AvatarEngine := { sampleEngine with initDone := true }

/-- The engine after `start_session` at time 5: active session, no
plugins, empty history. -/
def c8Active : AvatarEngine := (c8Base.start_session none 5).1

/-- Counterexample to C8 as stated: with no plugins at all, no plugin
produced content (the merged content is empty), yet after
`process_message` the history holds the user entry AND an assistant entry
with empty content — the claim says the history should gain only the user
entry.  The source's `if response:` guard is always true because the
merged response dict always carries its two keys. -/
theorem claim_c8_counterexample :
    (processThroughPlugins
        (c8Active.pluginBehaviors { mtype := "text", content := "hello" })).content = "" ∧
    (c8Active.process_message { mtype := "text", content := "hello" } 6).1.session_state.messages =
      [{ role := "user", content := "hello", timestamp := 6 },
       { role := "assistant", content := "", timestamp := 6 }] :=
  ⟨rfl, rfl⟩

/-- C8 (amended): whenever a session is active, `process_message` appends
BOTH a user entry and an assistant entry — the assistant entry is appended
unconditionally, carrying the merged pipeline content even when that
content is empty. -/
theorem claim_c8_assistant_always_appended :
    ∀ (e : AvatarEngine) (m : Message) (t : Nat),
      e.session_state.active = true →
      (e.process_message m t).1.session_state.messages =
        e.session_state.messages ++
          [{ role := "user", content := m.content, timestamp := t },
           { role := "assistant",
             content := (processThroughPlugins (e.pluginBehaviors m)).content,
             timestamp := t }] := by
  intro e m t h
  unfold AvatarEngine.process_message
  simp [h]

/-- Witness for the amended C8 at the concrete active engine. -/
theorem claim_c8_assistant_always_appended_witness :
    (c8Active.process_message { mtype := "text", content := "hello" } 6).1.session_state.messages =
      c8Active.session_state.messages ++
        [{ role := "user", content := "hello", timestamp := 6 },
         { role := "assistant",
           content := (processThroughPlugins
             (c8Active.pluginBehaviors { mtype := "text", content := "hello" })).content,
           timestamp := 6 }] :=
  claim_c8_assistant_always_appended c8Active { mtype := "text", content := "hello" } 6 rfl

/-- Every event emitted by the plugin-loading fold is a plugin load. -/
theorem loadPluginsAux_events :
    ∀ (names : List String) (e : AvatarEngine) (ev : InitEvent),
      ev ∈ (loadPluginsAux e names).2 → ∃ n, ev = InitEvent.pluginLoad n := by
  intro names
  induction names with
  | nil => intro e ev h; simp [loadPluginsAux] at h
  | cons n rest ih =>
      intro e ev h
      unfold loadPluginsAux at h
      cases hs : e.pluginSource n with
      | none =>
          rw [hs] at h
          exact ih e ev h
      | some p =>
          rw [hs] at h
          simp only [List.mem_cons] at h
          cases h with
          | inl he => exact ⟨n, he⟩
          | inr he => exact ih _ ev he

/-- On an engine whose configuration and persona are already loaded, every
event of a repeated initialization call is a connection re-setup or a
plugin reload. -/
theorem engineInit_trace_shape (e : AvatarEngine)
    (h1 : e.config.isSome = true) (h2 : e.personaLoaded = true) :
    ∀ ev ∈ (e.engineInit).2,
      ev = InitEvent.initRealtime ∨ ev = InitEvent.initSpeech ∨
      ∃ n, ev = InitEvent.pluginLoad n := by
  intro ev hmem
  unfold AvatarEngine.engineInit AvatarEngine.load_plugins at hmem
  simp only [h1, if_true, h2, List.nil_append] at hmem
  cases hO : (e.config.getD e.configSource).hasOpenai <;>
    cases hS : (e.config.getD e.configSource).hasSpeech <;>
      simp only [hO, hS, Bool.false_eq_true, if_false, if_true, List.nil_append,
        List.cons_append, List.mem_cons, List.mem_append] at hmem
  · exact Or.inr (Or.inr (loadPluginsAux_events _ _ ev hmem))
  · rcases hmem with h | h
    · exact Or.inr (Or.inl h)
    · exact Or.inr (Or.inr (loadPluginsAux_events _ _ ev h))
  · rcases hmem with h | h
    · exact Or.inl h
    · exact Or.inr (Or.inr (loadPluginsAux_events _ _ ev h))
  · rcases hmem with h | h | h
    · exact Or.inl h
    · exact Or.inr (Or.inl h)
    · exact Or.inr (Or.inr (loadPluginsAux_events _ _ ev h))

/-- Configuration enabling the realtime proxy and one plugin. -/
def c7Cfg : EngineConfig :=
  { hasOpenai := true, hasSpeech := false, pluginSpecs := ["rag_plugin"] }

/-- Plugin source holding the single loadable plugin "rag_plugin". -/
def c7Src : String → Option Plugin :=
  fun n => if n = "rag_plugin" then some cxPluginOk else none

/-- Fresh engine over that configuration. -/
def c7Engine0 : AvatarEngine := AvatarEngine.new c7Cfg c7Src

/-- The engine after its first initialization. -/
def c7Engine1 : AvatarEngine := (c7Engine0.engineInit).1

/-- Counterexample to C7 as stated: on the already-initialized engine
(`_initialized` is true), a second call to the initialization sequence is
NOT a no-op — it re-creates and re-initializes the realtime proxy and
reloads the plugin, so its side-effect trace is non-empty. -/
theorem claim_c7_counterexample :
    c7Engine1.initDone = true ∧
    (c7Engine1.engineInit).2
      = [InitEvent.initRealtime, InitEvent.pluginLoad "rag_plugin"] ∧
    (c7Engine1.engineInit).2 ≠ [] := by
  refine ⟨rfl, rfl, by decide⟩

/-- C7 (amended): the initialization sequence guards only the
configuration and persona loads — on an engine whose configuration and
persona are already loaded, a repeated call never re-emits `loadConfig`
or `loadPersona` (those two side effects run at most once), while every
event it does emit is a connection re-setup or a plugin reload, which
repeat on every call; the `_initialized` flag is set by the sequence but
never consulted by it (only `start_session` consults it). -/
theorem claim_c7_config_persona_guarded :
    ∀ e : AvatarEngine, e.config.isSome = true → e.personaLoaded = true →
      InitEvent.loadConfig ∉ (e.engineInit).2 ∧
      InitEvent.loadPersona ∉ (e.engineInit).2 ∧
      (e.engineInit).1.initDone = true ∧
      (∀ ev ∈ (e.engineInit).2,
          ev = InitEvent.initRealtime ∨ ev = InitEvent.initSpeech ∨
          ∃ n, ev = InitEvent.pluginLoad n) := by
  intro e h1 h2
  have hshape := engineInit_trace_shape e h1 h2
  refine ⟨?_, ?_, ?_, hshape⟩
  · intro hmem
    rcases hshape _ hmem with h | h | ⟨n, h⟩ <;> exact InitEvent.noConfusion h
  · intro hmem
    rcases hshape _ hmem with h | h | ⟨n, h⟩ <;> exact InitEvent.noConfusion h
  · unfold AvatarEngine.engineInit
    rfl

/-- Witness for the amended C7 at the concrete initialized engine. -/
theorem claim_c7_config_persona_guarded_witness :
    InitEvent.loadConfig ∉ (c7Engine1.engineInit).2 ∧
    InitEvent.loadPersona ∉ (c7Engine1.engineInit).2 :=
  ⟨(claim_c7_config_persona_guarded c7Engine1 rfl rfl).1,
   (claim_c7_config_persona_guarded c7Engine1 rfl rfl).2.1⟩
